import Mathlib

/-!
Verification development for the fakti invoicing application.

Monetary values are modelled as exact rationals (the source uses Python
Decimal arithmetic through Django DecimalField columns). Database state is
modelled as a list of invoice records; views become functions from state
and request parameters to state and outcome.
-/

namespace Fakti

/-- Modelled from the spec: rounding of monetary values (models.py is not in
the source tree). The spec prescribes standard half-up decimal rounding to
2 fractional digits over an exact decimal representation. -/
def round2 (q : ℚ) : ℚ := ((Int.floor (q * 100 + 1/2) : ℤ) : ℚ) / 100

/-- An invoice record, with the fields of the Invoice model as listed by
InvoiceForm in invoices/forms.py (client, invoice_number, issue_date,
due_date, currency, tax_percent, discount_percent, notes, status) plus the
owner, the primary key and the four derived monetary fields. Dates are
modelled as integer day numbers. -/
structure Invoice where
  pk : Nat
  user : Nat
  client : Nat
  invoice_number : String
  issue_date : Int
  due_date : Int
  currency : String
  status : String
  tax_percent : ℚ
  discount_percent : ℚ
  notes : String
  subtotal : ℚ
  tax_amount : ℚ
  discount_amount : ℚ
  total : ℚ
deriving DecidableEq

/-- Modelled from the spec: line item valuation (InvoiceItem.save in
models.py is not in the source tree). Spec 4.2: line_amount =
quantity times unit_price, rounded to 2 decimals; the test
test_line_total_calculation in invoices/tests.py exercises it. -/
def line_amount (quantity unit_price : ℚ) : ℚ := round2 (quantity * unit_price)

/-- Modelled from the spec: Invoice.calculate_totals (models.py is not in
the source tree; the method is invoked in invoices/views.py and asserted on
in InvoiceCalculationsTests). Spec 4.1: subtotal is the sum of the line
amounts, tax_amount = round2 (subtotal * tax_percent / 100),
discount_amount = round2 (subtotal * discount_percent / 100),
total = subtotal + tax_amount - discount_amount, and the four derived
fields are overwritten in place. -/
def calculate_totals (inv : Invoice) (line_amounts : List ℚ) : Invoice :=
  let s := line_amounts.sum
  let t := round2 (s * inv.tax_percent / 100)
  let d := round2 (s * inv.discount_percent / 100)
  { inv with subtotal := s, tax_amount := t, discount_amount := d,
             total := s + t - d }

/-- Modelled from the spec: the status enumeration of Invoice.STATUS_CHOICES
(models.py is not in the source tree). Spec 4.4 lists the flat enumeration
draft, sent, paid, overdue, canceled; InvoiceStatusManagementTests in
invoices/tests.py exercises each of the five values. -/
def STATUS_CHOICES : List String := ["draft", "sent", "paid", "overdue", "canceled"]

/-- The change_invoice_status view (invoices/views.py lines 242 to 261):
a status outside Invoice.STATUS_CHOICES is rejected with an error message
and the invoice is left untouched; otherwise the status is assigned and
saved. The Bool component records whether an error was reported. -/
def change_invoice_status (inv : Invoice) (status : String) : Invoice × Bool :=
  if status ∈ STATUS_CHOICES then ({ inv with status := status }, false)
  else (inv, true)

/-- The status update performed by the send_invoice_email view
(invoices/views.py lines 355 to 363): email.send() is attempted; on success
the invoice status is set to sent when it currently equals draft, and on an
exception nothing on the invoice is modified. delivery_ok records whether
email.send() succeeded. -/
def send_invoice_email_update (inv : Invoice) (delivery_ok : Bool) : Invoice :=
  if delivery_ok then
    (if inv.status = "draft" then { inv with status := "sent" } else inv)
  else inv

/-- Outcome of persisting an invoice at the storage boundary. -/
inductive SaveResult where
  | ok (db : List Invoice)
  | duplicateIdentifier
deriving DecidableEq

/-- Persistence of a new invoice under the storage-level constraint of
migration 0004_unique_invoice_number_per_user: a UniqueConstraint over the
pair (user, invoice_number). Inserting a record that collides with an
existing row on that pair fails with the distinguishable duplicate
identifier condition; otherwise the row is appended. -/
def insert_invoice (db : List Invoice) (inv : Invoice) : SaveResult :=
  if db.any (fun r => r.user == inv.user && r.invoice_number == inv.invoice_number)
  then SaveResult.duplicateIdentifier
  else SaveResult.ok (db ++ [inv])

/-- Owner-scoped single-record lookup, as performed by
get_object_or_404(Invoice, pk=pk, user=request.user) in edit_invoice,
delete_invoice, change_invoice_status, generate_invoice_pdf and
send_invoice_email (invoices/views.py): the record must match both the
primary key and the requesting user, else the outcome is not-found. -/
def owned_lookup (db : List Invoice) (u pk : Nat) : Option Invoice :=
  db.find? (fun r => r.pk == pk && r.user == u)

/-- Owner-scoped queryset, as returned by
Invoice.objects.filter(user=request.user) in InvoiceListView.get_queryset
and the dashboard views. -/
def get_queryset (db : List Invoice) (u : Nat) : List Invoice :=
  db.filter (fun r => r.user == u)

/-- The edit_invoice view (invoices/views.py lines 191 to 226) restricted to
its ownership behaviour: the invoice is fetched with
get_object_or_404(Invoice, pk=pk, user=request.user); if that lookup fails
the request ends in not-found and the database is untouched, otherwise the
update f is applied to the matched record. The Bool component records
whether the record was found. -/
def edit_invoice (db : List Invoice) (u pk : Nat) (f : Invoice → Invoice) :
    List Invoice × Bool :=
  match owned_lookup db u pk with
  | none => (db, false)
  | some _ => (db.map (fun r => if r.pk == pk && r.user == u then f r else r), true)

/-- The overdue aggregate of the core dashboard view (core/views.py lines
32 to 35): invoices of the requesting user whose due_date is strictly
before today and whose status is sent or draft. -/
def dashboard_overdue_invoices (db : List Invoice) (u : Nat) (today : Int) : Nat :=
  (db.filter (fun r =>
    r.user == u && r.due_date < today && (r.status == "sent" || r.status == "draft"))).length

/-- The overdue_count of the invoice_dashboard view (invoices/views.py line
456) and of InvoiceListView.get_context_data (line 116): the number of the
user's invoices whose stored status equals overdue. -/
def invoice_dashboard_overdue_count (db : List Invoice) (u : Nat) : Nat :=
  ((get_queryset db u).filter (fun r => r.status == "overdue")).length

/-- The total_amount aggregate of invoice_dashboard and InvoiceListView:
the sum of the total field over the user's invoices. -/
def total_amount (db : List Invoice) (u : Nat) : ℚ :=
  ((get_queryset db u).map (fun r => r.total)).sum

/-- Validity of the invoice line-item formset. BaseInvoiceItemFormSet in
invoices/forms.py is built with min_num = 1 and validate_min = True, so a
formset with fewer than one line item is invalid; forms_ok stands for the
validity of the individual item forms. items carries one
(quantity, unit_price) pair per submitted line item. -/
def formset_valid (items : List (ℚ × ℚ)) (forms_ok : Bool) : Bool :=
  forms_ok && decide (1 ≤ items.length)

/-- The POST branch of the create_invoice view for a valid invoice form
(invoices/views.py lines 150 to 172): the invoice is saved first to obtain
an id; if the formset is valid the items are saved, totals are recalculated
and saved, otherwise the just-saved invoice is deleted to avoid orphaned
records and the form is re-rendered. The Bool component records success. -/
def create_invoice (db : List Invoice) (inv : Invoice) (items : List (ℚ × ℚ))
    (forms_ok : Bool) : List Invoice × Bool :=
  let db1 := db ++ [inv]
  if formset_valid items forms_ok then
    (db ++ [calculate_totals inv (items.map (fun qp => line_amount qp.1 qp.2))], true)
  else
    (db1.filter (fun r => !(r.pk == inv.pk)), false)

/-- A client record, with the fields of ClientForm in invoices/forms.py
(name, email, phone, address, city, country, notes) plus the owner and the
primary key. -/
structure Client where
  pk : Nat
  user : Nat
  name : String
  email : String
  phone : String
  address : String
  city : String
  country : String
  notes : String
deriving DecidableEq

/-- A catalog item record, with the fields of ItemForm in invoices/forms.py
(name, description, unit_price) plus the owner and the primary key. -/
structure Item where
  pk : Nat
  user : Nat
  name : String
  description : String
  unit_price : ℚ
deriving DecidableEq

/-- The invoice delete_invoice view (invoices/views.py lines 229 to 239):
the invoice is fetched with get_object_or_404(Invoice, pk=pk,
user=request.user); a failed lookup ends in not-found with the database
untouched, otherwise the record is deleted. -/
def delete_invoice (db : List Invoice) (u pk : Nat) : List Invoice × Bool :=
  match owned_lookup db u pk with
  | none => (db, false)
  | some _ => (db.filter (fun r => !(r.pk == pk && r.user == u)), true)

/-- Owner-scoped client queryset: Client.objects.filter(user=request.user),
the get_queryset of ClientListView, ClientDetailView, ClientUpdateView and
ClientDeleteView (invoices/views.py lines 30 to 91). -/
def client_queryset (db : List Client) (u : Nat) : List Client :=
  db.filter (fun r => r.user == u)

/-- Single-client resolution by primary key within the owner-scoped
queryset, as performed by ClientDetailView, ClientUpdateView and
ClientDeleteView: the record must match both pk and owner, else the
outcome is not-found. -/
def client_lookup (db : List Client) (u pk : Nat) : Option Client :=
  db.find? (fun r => r.pk == pk && r.user == u)

/-- ClientUpdateView restricted to its ownership behaviour: a failed
owner-scoped lookup ends in not-found with the database untouched,
otherwise the update f is applied to the matched record. -/
def client_update (db : List Client) (u pk : Nat) (f : Client → Client) :
    List Client × Bool :=
  match client_lookup db u pk with
  | none => (db, false)
  | some _ => (db.map (fun r => if r.pk == pk && r.user == u then f r else r), true)

/-- ClientDeleteView restricted to its ownership behaviour: a failed
owner-scoped lookup ends in not-found with the database untouched,
otherwise the matched record is deleted. -/
def client_delete (db : List Client) (u pk : Nat) : List Client × Bool :=
  match client_lookup db u pk with
  | none => (db, false)
  | some _ => (db.filter (fun r => !(r.pk == pk && r.user == u)), true)

/-- Owner-scoped catalog item queryset: Item.objects.filter(user=
request.user), the get_queryset of ItemListView, ItemUpdateView and
ItemDeleteView (invoices/views.py lines 382 to 427). -/
def item_queryset (db : List Item) (u : Nat) : List Item :=
  db.filter (fun r => r.user == u)

/-- Single-item resolution, as performed by get_object_or_404(Item, pk=pk,
user=request.user) in item_detail_api and by ItemUpdateView and
ItemDeleteView through their owner-scoped queryset. -/
def item_lookup (db : List Item) (u pk : Nat) : Option Item :=
  db.find? (fun r => r.pk == pk && r.user == u)

/-- ItemUpdateView restricted to its ownership behaviour: a failed
owner-scoped lookup ends in not-found with the database untouched,
otherwise the update f is applied to the matched record. -/
def item_update (db : List Item) (u pk : Nat) (f : Item → Item) :
    List Item × Bool :=
  match item_lookup db u pk with
  | none => (db, false)
  | some _ => (db.map (fun r => if r.pk == pk && r.user == u then f r else r), true)

/-- ItemDeleteView restricted to its ownership behaviour: a failed
owner-scoped lookup ends in not-found with the database untouched,
otherwise the matched record is deleted. -/
def item_delete (db : List Item) (u pk : Nat) : List Item × Bool :=
  match item_lookup db u pk with
  | none => (db, false)
  | some _ => (db.filter (fun r => !(r.pk == pk && r.user == u)), true)

/-- The item_detail_api view (invoices/views.py lines 430 to 442): the item
is fetched with get_object_or_404(Item, pk=pk, user=request.user) and its
id, name, description and unit_price are returned; a failed lookup ends in
not-found. -/
def item_detail_api (db : List Item) (u pk : Nat) :
    Option (Nat × String × String × ℚ) :=
  match item_lookup db u pk with
  | none => none
  | some i => some (i.pk, i.name, i.description, i.unit_price)

/-- A concrete invoice used for instantiating theorems. -/
def inv0 : Invoice :=
  { pk := 1, user := 1, client := 1, invoice_number := "INV-2025-00001",
    issue_date := 0, due_date := 30, currency := "HTG", status := "draft",
    tax_percent := 0, discount_percent := 0, notes := "",
    subtotal := 0, tax_amount := 0, discount_amount := 0, total := 0 }

/-- Invoice of owner 2 reusing the invoice number of inv0 (owner 1). -/
def invOtherOwner : Invoice := { inv0 with pk := 3, user := 2 }

/-- An invoice owned by user 2 with primary key 7. -/
def invOfB : Invoice := { inv0 with pk := 7, user := 2 }

/-- A client owned by user 2 with primary key 4. -/
def clientOfB : Client :=
  { pk := 4, user := 2, name := "Bob Co", email := "bob@example.com",
    phone := "", address := "", city := "", country := "", notes := "" }

/-- A catalog item owned by user 2 with primary key 5. -/
def itemOfB : Item :=
  { pk := 5, user := 2, name := "Service", description := "", unit_price := 100 }

/-- An invoice of owner 1 with status sent whose due date lies strictly
before day 0. -/
def sent_past_due : Invoice := { inv0 with status := "sent", due_date := -1 }

/-- The overdue count stated by the spec for dashboards, following the
spec's words: the number of the owner's invoices with due_date strictly
before today and status in the set containing sent and draft. Stated as a
second definition to be compared with the counts the views compute. -/
def claimed_overdue_count (db : List Invoice) (u : Nat) (today : Int) : Nat :=
  db.countP (fun r =>
    decide (r.user = u ∧ r.due_date < today ∧ (r.status = "sent" ∨ r.status = "draft")))

/-- C1: for every invoice with tax percent t and discount percent d and
every collection of line items with given line amounts, recomputing totals
sets subtotal to the sum of the line amounts (0 for the empty collection),
tax_amount = round2 (subtotal * t / 100), discount_amount =
round2 (subtotal * d / 100), and total = subtotal + tax_amount -
discount_amount exactly, with no further rounding and no clamping of a
negative total to zero (witnessed by an instance with negative total). -/
theorem C1_totals_formula (inv : Invoice) (line_amounts : List ℚ) :
    (calculate_totals inv line_amounts).subtotal = line_amounts.sum ∧
    (calculate_totals inv line_amounts).tax_amount
      = round2 (line_amounts.sum * inv.tax_percent / 100) ∧
    (calculate_totals inv line_amounts).discount_amount
      = round2 (line_amounts.sum * inv.discount_percent / 100) ∧
    (calculate_totals inv line_amounts).total
      = (calculate_totals inv line_amounts).subtotal
        + (calculate_totals inv line_amounts).tax_amount
        - (calculate_totals inv line_amounts).discount_amount ∧
    (calculate_totals inv ([] : List ℚ)).subtotal = 0 ∧
    ∃ inv2 : Invoice, ∃ amounts : List ℚ, (calculate_totals inv2 amounts).total < 0 := by
  refine ⟨rfl, rfl, rfl, rfl, rfl, ⟨{ inv0 with discount_percent := 200 }, [10], ?_⟩⟩
  norm_num [calculate_totals, round2, inv0]

/-- C3: for every non-negative quantity q and unit price p, the stored line
amount equals round2 (q * p); in particular a zero quantity or a zero unit
price yields a line amount of 0. -/
theorem C3_line_amount_formula (q p : ℚ) (hq : 0 ≤ q) (hp : 0 ≤ p) :
    line_amount q p = round2 (q * p) ∧ line_amount 0 p = 0 ∧ line_amount q 0 = 0 := by
  refine ⟨rfl, ?_, ?_⟩ <;> norm_num [line_amount, round2]

theorem C3_line_amount_formula_witness :
    (0 : ℚ) ≤ 3 ∧ (0 : ℚ) ≤ 50 ∧
    (line_amount 3 50 = round2 (3 * 50) ∧ line_amount 0 50 = 0 ∧ line_amount 3 0 = 0) :=
  ⟨by norm_num, by norm_num, C3_line_amount_formula 3 50 (by norm_num) (by norm_num)⟩

/-- C6: running the totals recomputation twice in succession with an
unchanged list of line amounts produces the same invoice as running it
once. -/
theorem C6_totals_idempotent (inv : Invoice) (line_amounts : List ℚ) :
    calculate_totals (calculate_totals inv line_amounts) line_amounts
      = calculate_totals inv line_amounts := rfl

/-- C9: the totals recomputation overwrites only the four derived fields;
every other invoice field is unchanged by it, and the four derived result
fields depend only on the line amounts and the two percentage inputs. -/
theorem C9_totals_frame (inv : Invoice) (line_amounts : List ℚ) :
    ((calculate_totals inv line_amounts).pk = inv.pk ∧
     (calculate_totals inv line_amounts).user = inv.user ∧
     (calculate_totals inv line_amounts).client = inv.client ∧
     (calculate_totals inv line_amounts).invoice_number = inv.invoice_number ∧
     (calculate_totals inv line_amounts).issue_date = inv.issue_date ∧
     (calculate_totals inv line_amounts).due_date = inv.due_date ∧
     (calculate_totals inv line_amounts).currency = inv.currency ∧
     (calculate_totals inv line_amounts).status = inv.status ∧
     (calculate_totals inv line_amounts).tax_percent = inv.tax_percent ∧
     (calculate_totals inv line_amounts).discount_percent = inv.discount_percent ∧
     (calculate_totals inv line_amounts).notes = inv.notes) ∧
    (∀ inv2 : Invoice, inv2.tax_percent = inv.tax_percent →
      inv2.discount_percent = inv.discount_percent →
      (calculate_totals inv2 line_amounts).subtotal
          = (calculate_totals inv line_amounts).subtotal ∧
      (calculate_totals inv2 line_amounts).tax_amount
          = (calculate_totals inv line_amounts).tax_amount ∧
      (calculate_totals inv2 line_amounts).discount_amount
          = (calculate_totals inv line_amounts).discount_amount ∧
      (calculate_totals inv2 line_amounts).total
          = (calculate_totals inv line_amounts).total) := by
  refine ⟨⟨rfl, rfl, rfl, rfl, rfl, rfl, rfl, rfl, rfl, rfl, rfl⟩, ?_⟩
  intro inv2 h1 h2
  simp [calculate_totals, h1, h2]

theorem C9_totals_frame_witness :
    (calculate_totals inv0 [5]).status = inv0.status ∧
    (calculate_totals { inv0 with notes := "memo" } [5]).total
      = (calculate_totals inv0 [5]).total :=
  ⟨(C9_totals_frame inv0 [5]).1.2.2.2.2.2.2.2.1,
   ((C9_totals_frame inv0 [5]).2 { inv0 with notes := "memo" } rfl rfl).2.2.2⟩

/-- C4: after the send-invoice-email action the status transition to sent
occurs exactly when email delivery reported success and the prior status
was draft; in that case only the status field is set to sent, and in every
other case (delivery failure, or prior status not draft) the invoice is
completely unchanged. -/
theorem C4_send_email_transition (inv : Invoice) (delivery_ok : Bool) :
    ((delivery_ok = true ∧ inv.status = "draft") →
      send_invoice_email_update inv delivery_ok = { inv with status := "sent" }) ∧
    (¬(delivery_ok = true ∧ inv.status = "draft") →
      send_invoice_email_update inv delivery_ok = inv) ∧
    ((send_invoice_email_update inv delivery_ok).status ≠ inv.status ↔
      (delivery_ok = true ∧ inv.status = "draft")) := by
  by_cases hok : delivery_ok = true
  · by_cases hst : inv.status = "draft"
    · refine ⟨fun _ => by simp [send_invoice_email_update, hok, hst],
        fun h => absurd ⟨hok, hst⟩ h, ?_⟩
      simp [send_invoice_email_update, hok, hst]
    · refine ⟨fun h => absurd h.2 hst,
        fun _ => by simp [send_invoice_email_update, hok, hst], ?_⟩
      simp [send_invoice_email_update, hok, hst]
  · refine ⟨fun h => absurd h.1 hok,
      fun _ => by simp [send_invoice_email_update, hok], ?_⟩
    simp [send_invoice_email_update, hok]

theorem C4_send_email_transition_witness :
    send_invoice_email_update inv0 true = { inv0 with status := "sent" } ∧
    send_invoice_email_update inv0 false = inv0 ∧
    send_invoice_email_update { inv0 with status := "paid" } true
      = { inv0 with status := "paid" } :=
  ⟨(C4_send_email_transition inv0 true).1 ⟨rfl, rfl⟩,
   (C4_send_email_transition inv0 false).2.1 (by simp),
   (C4_send_email_transition { inv0 with status := "paid" } true).2.1 (by simp [inv0])⟩

/-- C7: the explicit change-status action sets the status to any target in
the enumeration draft, sent, paid, overdue, canceled regardless of the
prior status; for a target outside the enumeration the invoice is unchanged
and an error is reported, and the status field remains in the enumeration
whenever it was in it. -/
theorem C7_change_status (inv : Invoice) (s : String) :
    (s ∈ STATUS_CHOICES →
      change_invoice_status inv s = ({ inv with status := s }, false)) ∧
    (s ∉ STATUS_CHOICES → change_invoice_status inv s = (inv, true)) ∧
    (inv.status ∈ STATUS_CHOICES →
      (change_invoice_status inv s).1.status ∈ STATUS_CHOICES) := by
  refine ⟨fun h => by simp [change_invoice_status, h],
    fun h => by simp [change_invoice_status, h], fun h => ?_⟩
  by_cases hs : s ∈ STATUS_CHOICES
  · simp [change_invoice_status, hs]
  · simp [change_invoice_status, hs]
    exact h

theorem C7_change_status_witness :
    change_invoice_status inv0 "paid" = ({ inv0 with status := "paid" }, false) ∧
    change_invoice_status inv0 "invalid" = (inv0, true) ∧
    (change_invoice_status inv0 "invalid").1.status ∈ STATUS_CHOICES :=
  ⟨(C7_change_status inv0 "paid").1 (by simp [STATUS_CHOICES]),
   (C7_change_status inv0 "invalid").2.1 (by simp [STATUS_CHOICES]),
   (C7_change_status inv0 "invalid").2.2 (by simp [STATUS_CHOICES, inv0])⟩

/-- C2: persisting a second invoice whose (owner, invoice_number) pair
collides with an existing invoice of the same owner fails with the
distinguishable duplicate-identifier condition, while persisting an
invoice whose number is not used by its own owner (in particular the same
number under a different owner) succeeds. -/
theorem C2_unique_number_per_owner (db : List Invoice) (inv1 inv2 inv3 : Invoice) :
    (inv1 ∈ db → inv2.user = inv1.user → inv2.invoice_number = inv1.invoice_number →
      insert_invoice db inv2 = SaveResult.duplicateIdentifier) ∧
    ((∀ r ∈ db, r.user = inv3.user → r.invoice_number ≠ inv3.invoice_number) →
      insert_invoice db inv3 = SaveResult.ok (db ++ [inv3])) := by
  constructor
  · intro hmem h2 h3
    have hany : db.any
        (fun r => r.user == inv2.user && r.invoice_number == inv2.invoice_number) = true := by
      rw [List.any_eq_true]
      exact ⟨inv1, hmem, by rw [h2, h3]; simp⟩
    simp [insert_invoice, hany]
  · intro hnone
    have hany : db.any
        (fun r => r.user == inv3.user && r.invoice_number == inv3.invoice_number) = false := by
      rw [List.any_eq_false]
      intro r hr
      simp only [Bool.and_eq_true, beq_iff_eq, not_and]
      exact fun h1 h2 => hnone r hr h1 h2
    simp [insert_invoice, hany]

theorem C2_unique_number_per_owner_witness :
    insert_invoice [inv0] { inv0 with pk := 2 } = SaveResult.duplicateIdentifier ∧
    insert_invoice [inv0] invOtherOwner = SaveResult.ok ([inv0] ++ [invOtherOwner]) :=
  ⟨(C2_unique_number_per_owner [inv0] inv0 { inv0 with pk := 2 } invOtherOwner).1
      (by simp) rfl rfl,
   (C2_unique_number_per_owner [inv0] inv0 { inv0 with pk := 2 } invOtherOwner).2
      (by intro r hr; simp only [List.mem_singleton] at hr; subst hr
          intro h; simp [inv0, invOtherOwner] at h)⟩

lemma dashboard_overdue_eq_claimed (db : List Invoice) (u : Nat) (today : Int) :
    dashboard_overdue_invoices db u today = claimed_overdue_count db u today := by
  unfold dashboard_overdue_invoices claimed_overdue_count
  rw [List.countP_eq_length_filter]
  congr 1
  apply List.filter_congr
  intro r _
  by_cases h1 : r.user = u <;> by_cases h2 : r.due_date < today <;>
    by_cases h3 : r.status = "sent" <;> by_cases h4 : r.status = "draft" <;>
    simp [h1, h2, h3, h4]

lemma invoice_dashboard_counts_stored_status (db : List Invoice) (u : Nat) :
    invoice_dashboard_overdue_count db u
      = db.countP (fun r => decide (r.user = u ∧ r.status = "overdue")) := by
  unfold invoice_dashboard_overdue_count get_queryset
  rw [List.countP_eq_length_filter, List.filter_filter]
  congr 1
  apply List.filter_congr
  intro r _
  by_cases h1 : r.user = u <;> by_cases h2 : r.status = "overdue" <;> simp [h1, h2]

/-- C5 counterexample: for owner 1, a single invoice with stored status
sent and a due date strictly in the past is counted by the claimed
due-date-based formula but not by the overdue_count of the
invoice_dashboard view, so the claim is false of that dashboard count. -/
theorem C5_counterexample_invoice_dashboard :
    ¬ invoice_dashboard_overdue_count [sent_past_due] 1
        = claimed_overdue_count [sent_past_due] 1 0 := by
  decide

/-- C5 (amended): the core dashboard overdue count equals the number of the
owner's invoices with due_date strictly before today and status in the set
of sent and draft, while the overdue counts of the invoices-app dashboard
and invoice list instead equal the number of the owner's invoices whose
stored status literally equals overdue. -/
theorem C5_overdue_counts (db : List Invoice) (u : Nat) (today : Int) :
    dashboard_overdue_invoices db u today = claimed_overdue_count db u today ∧
    invoice_dashboard_overdue_count db u
      = db.countP (fun r => decide (r.user = u ∧ r.status = "overdue")) :=
  ⟨dashboard_overdue_eq_claimed db u today,
   invoice_dashboard_counts_stored_status db u⟩

lemma owned_find_none {α : Type} (pkf uf : α → Nat) (db : List α) (A B pk : Nat)
    (hAB : A ≠ B) (h : ∀ r ∈ db, pkf r = pk → uf r = B) :
    db.find? (fun r => pkf r == pk && uf r == A) = none := by
  rw [List.find?_eq_none]
  intro r hr
  simp only [Bool.and_eq_true, beq_iff_eq, not_and]
  intro hpkr
  exact fun hu => hAB (hu.symm.trans (h r hr hpkr))

/-- C8: a request by user A against an invoice, client or catalog item
record owned by B with A distinct from B ends in a not-found outcome (for
the edit, delete, detail and api views alike) with the stored data
untouched, and every owner-scoped list and every aggregate computed from
one contains only A's records and is insensitive to records of other
owners. -/
theorem C8_owner_isolation (idb : List Invoice) (cdb : List Client)
    (tdb : List Item) (A B ipk cpk tpk : Nat) (fi : Invoice → Invoice)
    (fc : Client → Client) (ft : Item → Item) (r0 : Invoice) (c0 : Client)
    (t0 : Item) (today : Int) (hAB : A ≠ B)
    (hipk : ∀ r ∈ idb, r.pk = ipk → r.user = B)
    (hcpk : ∀ r ∈ cdb, r.pk = cpk → r.user = B)
    (htpk : ∀ r ∈ tdb, r.pk = tpk → r.user = B)
    (hr0 : r0.user ≠ A) (hc0 : c0.user ≠ A) (ht0 : t0.user ≠ A) :
    owned_lookup idb A ipk = none ∧
    edit_invoice idb A ipk fi = (idb, false) ∧
    delete_invoice idb A ipk = (idb, false) ∧
    (∀ r ∈ get_queryset idb A, r.user = A) ∧
    get_queryset (r0 :: idb) A = get_queryset idb A ∧
    dashboard_overdue_invoices (r0 :: idb) A today
      = dashboard_overdue_invoices idb A today ∧
    invoice_dashboard_overdue_count (r0 :: idb) A
      = invoice_dashboard_overdue_count idb A ∧
    total_amount (r0 :: idb) A = total_amount idb A ∧
    client_lookup cdb A cpk = none ∧
    client_update cdb A cpk fc = (cdb, false) ∧
    client_delete cdb A cpk = (cdb, false) ∧
    (∀ r ∈ client_queryset cdb A, r.user = A) ∧
    client_queryset (c0 :: cdb) A = client_queryset cdb A ∧
    item_lookup tdb A tpk = none ∧
    item_update tdb A tpk ft = (tdb, false) ∧
    item_delete tdb A tpk = (tdb, false) ∧
    item_detail_api tdb A tpk = none ∧
    (∀ r ∈ item_queryset tdb A, r.user = A) ∧
    item_queryset (t0 :: tdb) A = item_queryset tdb A := by
  have hlookI : owned_lookup idb A ipk = none := by
    rw [owned_lookup]
    exact owned_find_none Invoice.pk Invoice.user idb A B ipk hAB hipk
  have hlookC : client_lookup cdb A cpk = none := by
    rw [client_lookup]
    exact owned_find_none Client.pk Client.user cdb A B cpk hAB hcpk
  have hlookT : item_lookup tdb A tpk = none := by
    rw [item_lookup]
    exact owned_find_none Item.pk Item.user tdb A B tpk hAB htpk
  have hqsI : get_queryset (r0 :: idb) A = get_queryset idb A := by
    simp [get_queryset, List.filter_cons, hr0]
  have hqsC : client_queryset (c0 :: cdb) A = client_queryset cdb A := by
    simp [client_queryset, List.filter_cons, hc0]
  have hqsT : item_queryset (t0 :: tdb) A = item_queryset tdb A := by
    simp [item_queryset, List.filter_cons, ht0]
  refine ⟨hlookI, ?_, ?_, ?_, hqsI, ?_, ?_, ?_,
    hlookC, ?_, ?_, ?_, hqsC, hlookT, ?_, ?_, ?_, ?_, hqsT⟩
  · rw [edit_invoice, hlookI]
  · rw [delete_invoice, hlookI]
  · intro r hr
    have := List.mem_filter.mp hr
    simpa using this.2
  · simp [dashboard_overdue_invoices, List.filter_cons, hr0]
  · rw [invoice_dashboard_overdue_count, invoice_dashboard_overdue_count, hqsI]
  · rw [total_amount, total_amount, hqsI]
  · rw [client_update, hlookC]
  · rw [client_delete, hlookC]
  · intro r hr
    have := List.mem_filter.mp hr
    simpa using this.2
  · rw [item_update, hlookT]
  · rw [item_delete, hlookT]
  · rw [item_detail_api, hlookT]
  · intro r hr
    have := List.mem_filter.mp hr
    simpa using this.2

theorem C8_owner_isolation_witness :
    owned_lookup [invOfB] 1 7 = none ∧
    edit_invoice [invOfB] 1 7 id = ([invOfB], false) ∧
    client_update [clientOfB] 1 4 id = ([clientOfB], false) ∧
    client_delete [clientOfB] 1 4 = ([clientOfB], false) ∧
    item_delete [itemOfB] 1 5 = ([itemOfB], false) ∧
    item_detail_api [itemOfB] 1 5 = none := by
  have H := C8_owner_isolation [invOfB] [clientOfB] [itemOfB] 1 2 7 4 5
    id id id invOfB clientOfB itemOfB 0 (by decide) (by decide) (by decide)
    (by decide) (by decide) (by decide) (by decide)
  exact ⟨H.1, H.2.1,
    H.2.2.2.2.2.2.2.2.2.1,
    H.2.2.2.2.2.2.2.2.2.2.1,
    H.2.2.2.2.2.2.2.2.2.2.2.2.2.2.2.1,
    H.2.2.2.2.2.2.2.2.2.2.2.2.2.2.2.2.1⟩

/-- C10: when the invoice form is valid but the line-item formset is
invalid (in particular when it has fewer than one line item), the invoice
saved during processing of the create request is deleted again, so the
stored data after the failed request equals the stored data before it. -/
theorem C10_create_rollback (db : List Invoice) (inv : Invoice)
    (items : List (ℚ × ℚ)) (forms_ok : Bool)
    (hfresh : ∀ r ∈ db, r.pk ≠ inv.pk) :
    (formset_valid items forms_ok = false →
      create_invoice db inv items forms_ok = (db, false)) ∧
    (items = [] → create_invoice db inv items forms_ok = (db, false)) := by
  have hdel : (db ++ [inv]).filter (fun r => !(r.pk == inv.pk)) = db := by
    rw [List.filter_append]
    have h1 : db.filter (fun r => !(r.pk == inv.pk)) = db :=
      List.filter_eq_self.mpr (fun r hr => by simp [hfresh r hr])
    have h2 : [inv].filter (fun r => !(r.pk == inv.pk)) = [] := by simp
    rw [h1, h2, List.append_nil]
  have main : formset_valid items forms_ok = false →
      create_invoice db inv items forms_ok = (db, false) := by
    intro hval
    rw [create_invoice]
    simp only [hval, Bool.false_eq_true, if_false, hdel]
  refine ⟨main, fun hnil => main ?_⟩
  subst hnil
  simp [formset_valid]

theorem C10_create_rollback_witness :
    create_invoice [inv0] { inv0 with pk := 99 } [] true = ([inv0], false) :=
  (C10_create_rollback [inv0] { inv0 with pk := 99 } [] true (by decide)).2 rfl

end Fakti
